import Mathlib

/-!
Verification of the registry-and-lifecycle facade of the tsParticles slim
entry point (`src/index.slim.ts`).

The TypeScript facade (`Main`) is embedded shallowly:

* Opaque JavaScript function values (draw functions, lifecycle hooks, frame
  callbacks) are modelled as wrapped natural-number tokens, so that the
  JavaScript identity test `f === g` becomes decidable equality of tokens.
* The shape-drawer registry kept by the external `Plugins` helper is a total
  map `String → Option IShapeDrawer`; `Plugins.addShapeDrawer` is a pointwise
  overwrite.  The `Plugins` module itself is not part of the given sources,
  so its store is modelled from the spec.
* The facade state (`MainState`) carries the private `initialized` flag, the
  scheduler bindings installed on `window` (absent when no window exists) and
  the shape-drawer registry.
* Promises are modelled by their resolved values: an async operation that can
  fail resolves with `Option`, never with an exception.
-/

namespace TsParticles

/-- An opaque `ShapeDrawerDrawFunction` value; the token gives JS identity. -/
structure ShapeDrawerDrawFunction where
  token : Nat
deriving DecidableEq, Repr

/-- An opaque `ShapeDrawerInitFunction` value. -/
structure ShapeDrawerInitFunction where
  token : Nat
deriving DecidableEq, Repr

/-- An opaque `ShapeDrawerAfterEffectFunction` value. -/
structure ShapeDrawerAfterEffectFunction where
  token : Nat
deriving DecidableEq, Repr

/-- An opaque `ShapeDrawerDestroyFunction` value. -/
structure ShapeDrawerDestroyFunction where
  token : Nat
deriving DecidableEq, Repr

/-- The `IShapeDrawer` capability bundle: a required `draw` function and three
optional lifecycle hooks, as in `Core/Interfaces/IShapeDrawer`.  A missing
hook on the JS object is `none`. -/
structure IShapeDrawer where
  init : Option ShapeDrawerInitFunction := none
  draw : ShapeDrawerDrawFunction
  afterEffect : Option ShapeDrawerAfterEffectFunction := none
  destroy : Option ShapeDrawerDestroyFunction := none
deriving DecidableEq, Repr

/-- The shape-drawer registry: a keyed store from shape names to bundles. -/
def Registry : Type := String → Option IShapeDrawer

/-- The registry at process start, before any registration. -/
def emptyRegistry : Registry := fun _ => none

/-- Modelled from the spec: `Plugins.addShapeDrawer` (the `Plugins` helper in
`Utils/Plugins` is not among the given sources) — `register(key, bundle)`
stores `bundle` under `key`, overwriting any prior association for that exact
key; it always succeeds. -/
def register (r : Registry) (key : String) (bundle : IShapeDrawer) : Registry :=
  fun k => if k = key then some bundle else r k

/-- Modelled from the spec: `resolve(key)` is a pure lookup returning the
bundle stored under `key`, or absent. -/
def resolve (r : Registry) (key : String) : Option IShapeDrawer := r key

/-- Modelled from the spec: `registerAlias(keys, bundle)` binds one bundle
instance to each of the given keys in turn. -/
def registerAlias (r : Registry) (keys : List String) (bundle : IShapeDrawer) : Registry :=
  keys.foldl (fun acc k => register acc k bundle) r

/-- An opaque frame-scheduling primitive (`requestAnimationFrame` flavour). -/
structure FrameFn where
  token : Nat
deriving DecidableEq, Repr

/-- An opaque frame-cancellation primitive. -/
structure CancelFn where
  token : Nat
deriving DecidableEq, Repr

/-- The parts of the browser `window` object probed by the constructor: each
vendor-prefixed primitive is present (`some`) or absent (`none`). -/
structure Window where
  requestAnimationFrame : Option FrameFn := none
  webkitRequestAnimationFrame : Option FrameFn := none
  mozRequestAnimationFrame : Option FrameFn := none
  oRequestAnimationFrame : Option FrameFn := none
  msRequestAnimationFrame : Option FrameFn := none
  cancelAnimationFrame : Option CancelFn := none
  webkitCancelRequestAnimationFrame : Option CancelFn := none
  mozCancelRequestAnimationFrame : Option CancelFn := none
  oCancelRequestAnimationFrame : Option CancelFn := none
  msCancelRequestAnimationFrame : Option CancelFn := none

/-- The schedule binding the constructor installs as
`window.customRequestAnimationFrame`: either a native primitive or the
`setTimeout` fallback with its interval in milliseconds. -/
inductive ScheduleBinding where
  | native (f : FrameFn)
  | timerFallback (intervalMs : ℚ)
deriving DecidableEq, Repr

/-- The cancel binding the constructor installs as
`window.customCancelRequestAnimationFrame`: a native primitive or
`clearTimeout`. -/
inductive CancelBinding where
  | native (f : CancelFn)
  | timerClear
deriving DecidableEq, Repr

/-- `window.customRequestAnimationFrame` as computed at construction
(src lines 51-58): the `||` chain over the vendor candidates, with the
`setTimeout(callback, 1000 / 60)` fallback. -/
def customRequestAnimationFrame (w : Window) : ScheduleBinding :=
  (w.requestAnimationFrame <|> w.webkitRequestAnimationFrame <|>
      w.mozRequestAnimationFrame <|> w.oRequestAnimationFrame <|>
      w.msRequestAnimationFrame).elim
    (ScheduleBinding.timerFallback (1000 / 60)) ScheduleBinding.native

/-- `window.customCancelRequestAnimationFrame` as computed at construction
(src lines 60-67): the `||` chain over the cancellation candidates, with the
`clearTimeout` fallback. -/
def customCancelRequestAnimationFrame (w : Window) : CancelBinding :=
  (w.cancelAnimationFrame <|> w.webkitCancelRequestAnimationFrame <|>
      w.mozCancelRequestAnimationFrame <|> w.oCancelRequestAnimationFrame <|>
      w.msCancelRequestAnimationFrame).elim
    CancelBinding.timerClear CancelBinding.native

/-- The first available candidate of an ordered probe list (spec wording:
"probes an ordered list of candidate primitives … and binds the first
available one"). -/
def firstAvailable {α : Type} (candidates : List (Option α)) : Option α :=
  (candidates.filterMap id).head?

/-- The built-in drawer instances created in the constructor.  Each `new`
expression yields a distinct object; distinct tokens model that identity. -/
def lineDrawer : IShapeDrawer := { draw := ⟨0⟩ }

/-- The `new CircleDrawer()` instance. -/
def circleDrawer : IShapeDrawer := { draw := ⟨1⟩ }

/-- The single `new SquareDrawer()` instance shared by `edge` and `square`. -/
def squareDrawer : IShapeDrawer := { draw := ⟨2⟩ }

/-- The `new TriangleDrawer()` instance. -/
def triangleDrawer : IShapeDrawer := { draw := ⟨3⟩ }

/-- The `new StarDrawer()` instance. -/
def starDrawer : IShapeDrawer := { draw := ⟨4⟩ }

/-- The `new PolygonDrawer()` instance. -/
def polygonDrawer : IShapeDrawer := { draw := ⟨5⟩ }

/-- The single `new TextDrawer()` instance shared by `char` and `character`. -/
def textDrawer : IShapeDrawer := { draw := ⟨6⟩ }

/-- The single `new ImageDrawer()` instance shared by `image` and `images`. -/
def imageDrawer : IShapeDrawer := { draw := ⟨7⟩ }

/-- The eleven `Plugins.addShapeDrawer` calls of the constructor
(src lines 74-84), applied to the process-start registry in source order. -/
def seedShapeDrawers : Registry :=
  let r := register emptyRegistry "line" lineDrawer
  let r := register r "circle" circleDrawer
  let r := register r "edge" squareDrawer
  let r := register r "square" squareDrawer
  let r := register r "triangle" triangleDrawer
  let r := register r "star" starDrawer
  let r := register r "polygon" polygonDrawer
  let r := register r "char" textDrawer
  let r := register r "character" textDrawer
  let r := register r "image" imageDrawer
  let r := register r "images" imageDrawer
  r

/-- The facade state: the private `initialized` flag, the scheduler bindings
installed on `window` (absent when construction found no window), and the
shape-drawer registry held by `Plugins`. -/
structure MainState where
  initialized : Bool
  scheduler : Option (ScheduleBinding × CancelBinding)
  shapeDrawers : Registry

/-- The `Main` constructor (src lines 47-85): sets `initialized` to false,
installs the scheduler bindings only when a window is present (the
`typeof window !== "undefined" && window` guard), and seeds the built-in
shape drawers unconditionally. -/
def Main.construct (env : Option Window) : MainState :=
  { initialized := false
    scheduler := env.map fun w =>
      (customRequestAnimationFrame w, customCancelRequestAnimationFrame w)
    shapeDrawers := seedShapeDrawers }

/-- `Main.init` (src lines 90-94): sets the flag on the first call, does
nothing afterwards. -/
def Main.init (s : MainState) : MainState :=
  if s.initialized then s else { s with initialized := true }

/-- The second argument of `addShape`: either a full `IShapeDrawer` bundle or
a bare draw function (`typeof drawer === "function"` distinguishes them). -/
inductive DrawerArg where
  | bundle (d : IShapeDrawer)
  | fn (f : ShapeDrawerDrawFunction)
deriving DecidableEq, Repr

/-- `Main.addShape` (src lines 163-182): a bare function is normalized into a
bundle object together with the optional companion hooks; a bundle argument
is stored as is; the result is registered under `shape`. -/
def Main.addShape (s : MainState) (shape : String) (drawer : DrawerArg)
    (init : Option ShapeDrawerInitFunction := none)
    (afterEffect : Option ShapeDrawerAfterEffectFunction := none)
    (destroy : Option ShapeDrawerDestroyFunction := none) : MainState :=
  let customDrawer : IShapeDrawer :=
    match drawer with
    | .fn f => { afterEffect := afterEffect, draw := f, destroy := destroy, init := init }
    | .bundle d => d
  { s with shapeDrawers := register s.shapeDrawers shape customDrawer }

/-- An opaque container handle (the external `Container` entity). -/
structure Container where
  token : Nat
deriving DecidableEq, Repr

/-- An opaque parsed configuration value (the JSON body of `loadJSON`). -/
structure Config where
  token : Nat
deriving DecidableEq, Repr

/-- The Loader singleton state: the ordered tracked collection of loaded
containers. -/
structure LoaderState where
  containers : List Container
deriving DecidableEq, Repr

/-- Modelled from the spec: `Loader.dom()` (the `Loader` class in
`Core/Loader` is not among the given sources) returns the full tracked
collection in load order, as a point-in-time value. -/
def Loader.dom (s : LoaderState) : List Container := s.containers

/-- Modelled from the spec: a successful load appends the resulting container
handle to the Loader's tracked collection. -/
def Loader.trackContainer (s : LoaderState) (c : Container) : LoaderState :=
  { containers := s.containers ++ [c] }

/-- The outcome of the GET request and JSON parse underlying `loadJSON`. -/
inductive FetchOutcome where
  | success (config : Config)
  | networkFailure
  | parseFailure
deriving DecidableEq, Repr

/-- Modelled from the spec: `Loader.loadJSON` issues a GET, parses the body,
and forwards to `load`; network or parse failure resolves the promise with an
absent result instead of rejecting.  `loadResult` is the external `load`
construction path applied to the parsed configuration. -/
def Loader.loadJSON (outcome : FetchOutcome)
    (loadResult : Config → Option Container) : Option Container :=
  match outcome with
  | .success cfg => loadResult cfg
  | .networkFailure => none
  | .parseFailure => none

/-- `Main.loadJSON` (src lines 126-128): a pure delegation to
`Loader.loadJSON`. -/
def Main.loadJSON (outcome : FetchOutcome)
    (loadResult : Config → Option Container) : Option Container :=
  Loader.loadJSON outcome loadResult

/-- `Main.dom` (src lines 142-144): a pure delegation to `Loader.dom`. -/
def Main.dom (s : LoaderState) : List Container := Loader.dom s

/-- The list of callback invocations made by the legacy `particlesJS.load`
(src lines 223-231): the `.then` handler invokes the callback with the
container exactly when the `loadJSON` promise resolved with one. -/
def particlesJS.loadCallbackCalls (outcome : FetchOutcome)
    (loadResult : Config → Option Container) : List Container :=
  match Main.loadJSON outcome loadResult with
  | some container => [container]
  | none => []

/-- The Loader state at module initialization: the module-level statements
run before any load call, so the tracked collection is empty. -/
def moduleInitLoader : LoaderState := { containers := [] }

/-- The legacy `pJSDom` value (src line 246): `tsParticles.dom()` evaluated
once at module initialization. -/
def pJSDom : List Container := Main.dom moduleInitLoader

/-! ## Helper lemmas -/

/-- The schedule `||` chain picks the first available candidate of the fixed
precedence list, with the timer fallback last. -/
theorem raf_first_available (w : Window) :
    customRequestAnimationFrame w =
      (firstAvailable [w.requestAnimationFrame, w.webkitRequestAnimationFrame,
          w.mozRequestAnimationFrame, w.oRequestAnimationFrame,
          w.msRequestAnimationFrame]).elim
        (ScheduleBinding.timerFallback (1000 / 60)) ScheduleBinding.native := by
  obtain ⟨a, b, c, d, e, _, _, _, _, _⟩ := w
  cases a <;> cases b <;> cases c <;> cases d <;> cases e <;> rfl

/-- The cancel `||` chain picks the first available candidate of the fixed
precedence list, with `clearTimeout` last. -/
theorem cancel_first_available (w : Window) :
    customCancelRequestAnimationFrame w =
      (firstAvailable [w.cancelAnimationFrame, w.webkitCancelRequestAnimationFrame,
          w.mozCancelRequestAnimationFrame, w.oCancelRequestAnimationFrame,
          w.msCancelRequestAnimationFrame]).elim
        CancelBinding.timerClear CancelBinding.native := by
  obtain ⟨_, _, _, _, _, a, b, c, d, e⟩ := w
  cases a <;> cases b <;> cases c <;> cases d <;> cases e <;> rfl

/-- Applying `Main.init` twice is the same as applying it once. -/
theorem init_init (s : MainState) : Main.init (Main.init s) = Main.init s := by
  by_cases h : s.initialized <;> simp [Main.init, h]

/-- `Loader.dom` after a fold of `trackContainer` appends the loaded
containers to the collection in load order. -/
theorem dom_foldl_track (s : LoaderState) (cs : List Container) :
    Loader.dom (cs.foldl Loader.trackContainer s) = Loader.dom s ++ cs := by
  induction cs generalizing s with
  | nil => simp
  | cons c cs ih =>
    rw [List.foldl_cons, ih]
    simp [Loader.trackContainer, Loader.dom]

/-! ## Claims -/

/-- C1: `addShape(name, drawFn, init?, afterEffect?, destroy?)` (bare-function
form) registers the same bundle as `addShape(name, bundle)` with the object
`{draw: drawFn, init, afterEffect, destroy}`: both are normalized to the full
bundle shape at registration time, the stored bundle's `draw` field is
`drawFn` itself, and any companion hook not supplied is absent in the stored
bundle. -/
theorem addShape_forms_equivalent (s : MainState) (name : String)
    (f : ShapeDrawerDrawFunction) (i : Option ShapeDrawerInitFunction)
    (a : Option ShapeDrawerAfterEffectFunction)
    (d : Option ShapeDrawerDestroyFunction) :
    Main.addShape s name (.fn f) i a d =
      Main.addShape s name
        (.bundle { init := i, draw := f, afterEffect := a, destroy := d }) ∧
    resolve (Main.addShape s name (.fn f) i a d).shapeDrawers name =
      some { init := i, draw := f, afterEffect := a, destroy := d } ∧
    (resolve (Main.addShape s name (.fn f) i a d).shapeDrawers name).map
        IShapeDrawer.draw = some f := by
  refine ⟨rfl, ?_, ?_⟩ <;> simp [Main.addShape, resolve, register]

/-- C2: every `Main` constructor run seeds the same registry; in it, the
alias pairs `edge`/`square`, `char`/`character` and `image`/`images` resolve
to the one shared `SquareDrawer`, `TextDrawer` and `ImageDrawer` instance
respectively; and in general two distinct keys bound to one bundle by alias
registration both resolve to that same bundle instance. -/
theorem builtin_aliases_share_instance :
    (∀ env, (Main.construct env).shapeDrawers = seedShapeDrawers) ∧
    (resolve seedShapeDrawers "edge" = some squareDrawer ∧
      resolve seedShapeDrawers "square" = some squareDrawer) ∧
    (resolve seedShapeDrawers "char" = some textDrawer ∧
      resolve seedShapeDrawers "character" = some textDrawer) ∧
    (resolve seedShapeDrawers "image" = some imageDrawer ∧
      resolve seedShapeDrawers "images" = some imageDrawer) ∧
    (∀ (r : Registry) (k1 k2 : String) (b : IShapeDrawer), k1 ≠ k2 →
      resolve (registerAlias r [k1, k2] b) k1 = some b ∧
      resolve (registerAlias r [k1, k2] b) k2 = some b) := by
  refine ⟨fun _ => rfl, ⟨by decide, by decide⟩, ⟨by decide, by decide⟩,
    ⟨by decide, by decide⟩, fun r k1 k2 b _ => ?_⟩
  constructor <;> simp [registerAlias, register, resolve]

/-- C2 witness: the general alias clause at the concrete keys `"a"`, `"b"`
and the `lineDrawer` bundle. -/
theorem builtin_aliases_share_instance_witness :
    resolve (registerAlias emptyRegistry ["a", "b"] lineDrawer) "a" =
      some lineDrawer ∧
    resolve (registerAlias emptyRegistry ["a", "b"] lineDrawer) "b" =
      some lineDrawer :=
  builtin_aliases_share_instance.2.2.2.2 emptyRegistry "a" "b" lineDrawer
    (by decide)

/-- C3: registering a bundle under key `k` changes the resolution of exactly
`k`: any other key resolves as before, `k` resolves to the new bundle, and
when two keys alias one old bundle and a new bundle is registered under only
the first, the second still resolves to the old bundle. -/
theorem register_frame_effect :
    (∀ (r : Registry) (k k2 : String) (b : IShapeDrawer), k2 ≠ k →
      resolve (register r k b) k2 = resolve r k2) ∧
    (∀ (r : Registry) (k : String) (b : IShapeDrawer),
      resolve (register r k b) k = some b) ∧
    (∀ (r : Registry) (k1 k2 : String) (oldB newB : IShapeDrawer), k2 ≠ k1 →
      resolve (register (registerAlias r [k1, k2] oldB) k1 newB) k2 =
        some oldB) := by
  refine ⟨fun r k k2 b h => ?_, fun r k b => ?_, fun r k1 k2 oldB newB h => ?_⟩
  · simp [register, resolve, h]
  · simp [register, resolve]
  · simp [registerAlias, register, resolve, h]

/-- C3 witness: the frame conditions at concrete keys and bundles. -/
theorem register_frame_effect_witness :
    resolve (register emptyRegistry "a" lineDrawer) "b" =
      resolve emptyRegistry "b" ∧
    resolve (register emptyRegistry "a" lineDrawer) "a" = some lineDrawer ∧
    resolve (register (registerAlias emptyRegistry ["a", "b"] lineDrawer) "a"
        circleDrawer) "b" = some lineDrawer :=
  ⟨register_frame_effect.1 emptyRegistry "a" "b" lineDrawer (by decide),
    register_frame_effect.2.1 emptyRegistry "a" lineDrawer,
    register_frame_effect.2.2 emptyRegistry "a" "b" lineDrawer circleDrawer
      (by decide)⟩

/-- C4: the installed schedule binding is the first available primitive in
the precedence order native `requestAnimationFrame`, webkit, moz, o, ms, with
a `1000 / 60` ms timer fallback when none is available; the cancel binding is
the first available cancellation primitive in the same precedence order, with
`clearTimeout` as fallback. -/
theorem scheduler_precedence (w : Window) :
    customRequestAnimationFrame w =
      (firstAvailable [w.requestAnimationFrame, w.webkitRequestAnimationFrame,
          w.mozRequestAnimationFrame, w.oRequestAnimationFrame,
          w.msRequestAnimationFrame]).elim
        (ScheduleBinding.timerFallback (1000 / 60)) ScheduleBinding.native ∧
    customCancelRequestAnimationFrame w =
      (firstAvailable [w.cancelAnimationFrame,
          w.webkitCancelRequestAnimationFrame,
          w.mozCancelRequestAnimationFrame, w.oCancelRequestAnimationFrame,
          w.msCancelRequestAnimationFrame]).elim
        CancelBinding.timerClear CancelBinding.native ∧
    customRequestAnimationFrame {} = ScheduleBinding.timerFallback (1000 / 60) ∧
    customCancelRequestAnimationFrame {} = CancelBinding.timerClear :=
  ⟨raf_first_available w, cancel_first_available w, rfl, rfl⟩

/-- C5: construction without a window installs no scheduler bindings, raises
no fault (it is a total function producing a full state), and still seeds the
built-in shape drawers; and no facade operation other than the constructor
touches the scheduler bindings. -/
theorem construct_without_window :
    (Main.construct none).scheduler = none ∧
    Main.construct none =
      { initialized := false, scheduler := none,
        shapeDrawers := seedShapeDrawers } ∧
    resolve (Main.construct none).shapeDrawers "line" = some lineDrawer ∧
    resolve (Main.construct none).shapeDrawers "edge" = some squareDrawer ∧
    (∀ s, (Main.init s).scheduler = s.scheduler) ∧
    (∀ s shape drawer i a d,
      (Main.addShape s shape drawer i a d).scheduler = s.scheduler) := by
  refine ⟨rfl, rfl, by decide, by decide, fun s => ?_, fun s _ _ _ _ _ => rfl⟩
  unfold Main.init
  split <;> rfl

/-- C6: `init()` is idempotent: any positive number of calls leaves the
facade in the state one call produces, and every call is a total function
(no fault). -/
theorem init_idempotent (s : MainState) (n : Nat) :
    Main.init^[n + 1] s = Main.init s := by
  induction n with
  | zero => rfl
  | succ k ih => rw [Function.iterate_succ_apply', ih, init_init]

/-- C7: the legacy `particlesJS.load` forwards to `loadJSON` and invokes the
callback exactly when `loadJSON` resolved with an actual container, passing
that container; an absent result is silently dropped, never reported. -/
theorem particlesJS_load_callback_iff (outcome : FetchOutcome)
    (loadResult : Config → Option Container) :
    (∀ c, Main.loadJSON outcome loadResult = some c →
      particlesJS.loadCallbackCalls outcome loadResult = [c]) ∧
    (Main.loadJSON outcome loadResult = none →
      particlesJS.loadCallbackCalls outcome loadResult = []) ∧
    (∀ c, particlesJS.loadCallbackCalls outcome loadResult = [c] →
      Main.loadJSON outcome loadResult = some c) := by
  unfold particlesJS.loadCallbackCalls
  cases h : Main.loadJSON outcome loadResult <;> simp

/-- C7 witness: a dropped absent result on network failure, and an invoked
callback on a successful load. -/
theorem particlesJS_load_callback_iff_witness :
    particlesJS.loadCallbackCalls FetchOutcome.networkFailure
      (fun _ => none) = [] ∧
    particlesJS.loadCallbackCalls (FetchOutcome.success ⟨0⟩)
      (fun _ => some ⟨5⟩) = [⟨5⟩] :=
  ⟨(particlesJS_load_callback_iff FetchOutcome.networkFailure
      (fun _ => none)).2.1 rfl,
    (particlesJS_load_callback_iff (FetchOutcome.success ⟨0⟩)
      (fun _ => some ⟨5⟩)).1 ⟨5⟩ rfl⟩

/-- C8: `pJSDom` is the snapshot of `dom()` taken at module initialization,
hence empty; loading containers afterwards grows the live collection but the
snapshot value is unaffected (`dom` yields a point-in-time value). -/
theorem pJSDom_snapshot (s : LoaderState) (c : Container)
    (cs : List Container) :
    pJSDom = [] ∧
    Loader.dom (Loader.trackContainer s c) = Loader.dom s ++ [c] ∧
    Loader.dom (cs.foldl Loader.trackContainer moduleInitLoader) = cs := by
  refine ⟨rfl, rfl, ?_⟩
  rw [dom_foldl_track]
  rfl

/-- C9: `loadJSON` resolves with an absent result on network failure and on
parse failure; its result type is an `Option`-valued resolution (the promise
is resolved, never rejected), so all load entry points share the
absent-on-failure idiom. -/
theorem loadJSON_failure_resolves_absent
    (loadResult : Config → Option Container) :
    Main.loadJSON FetchOutcome.networkFailure loadResult = none ∧
    Main.loadJSON FetchOutcome.parseFailure loadResult = none :=
  ⟨rfl, rfl⟩

/-- C10: when the `drawer` argument of `addShape` is a full bundle object,
the optional `init`, `afterEffect` and `destroy` arguments are ignored
entirely: the registered bundle is the given object itself, unchanged, even
when those arguments are supplied and differ from the bundle's own hooks. -/
theorem addShape_bundle_ignores_hooks (s : MainState) (name : String)
    (d : IShapeDrawer) (i : Option ShapeDrawerInitFunction)
    (a : Option ShapeDrawerAfterEffectFunction)
    (de : Option ShapeDrawerDestroyFunction) :
    Main.addShape s name (.bundle d) i a de = Main.addShape s name (.bundle d) ∧
    resolve (Main.addShape s name (.bundle d) i a de).shapeDrawers name =
      some d := by
  exact ⟨rfl, by simp [Main.addShape, resolve, register]⟩

end TsParticles
